import Mathlib

/-!
Shallow embedding of the GPU query profiler of the `agpu` repository
(`src/graphics/profiler.rs`, `src/graphics/profiler/queryset.rs`,
`src/graphics/gpu.rs`, `src/graphics/viewport/frame.rs`) together with
theorems settling the specification claims about it.

Modelling conventions:
- `u32` / `u64` machine arithmetic is modelled on `Nat` with explicit
  reduction modulo `2^32` / `2^64` where the source performs wrapping
  arithmetic (Rust release semantics; a debug build would panic at the
  same inputs).
- The `f32` arithmetic of `ts_to_millis` / `timestamp_report` is modelled
  over `ℚ` (exact arithmetic); the claims at issue concern the structure
  of the computation (which factors are multiplied and divided), which is
  independent of rounding.
- GPU-side effects are modelled explicitly: a `wgpu::CommandEncoder` or
  `wgpu::RenderPass` is a list of recorded `Command`s; the asynchronous
  buffer mapping of `QuerySet::get` is parametrised by a boolean `mapOk`
  (the outcome of `map_async`), and the readback buffer contents (what the
  GPU wrote there by `get` time) is the `buffer` field of `QuerySet`.
- A Rust panic (e.g. `Option::unwrap` on `None`) is modelled by an
  `Option`-returning function producing `none`.
-/

namespace Agpu

/-- 2^32, the modulus of `u32` arithmetic. -/
def U32_MOD : Nat := 4294967296

/-- 2^64, the modulus of `u64` arithmetic. -/
def U64_MOD : Nat := 18446744073709551616

/-- `GpuError` from `src/graphics/error.rs` (the payload-carrying wgpu
variants are irrelevant to the profiler claims and carry no data here). -/
inductive GpuError where
  | AdapterNone
  | ShaderParseError
  | RequestDeviceError
  | DisplayNone
  | SurfaceError
  | BufferAsyncError
  | QueryNone
  deriving DecidableEq, Repr

instance {ε α : Type} [DecidableEq ε] [DecidableEq α] : DecidableEq (Except ε α) :=
  fun a b =>
    match a, b with
    | Except.ok a, Except.ok b => decidable_of_iff (a = b) (by simp)
    | Except.error a, Except.error b => decidable_of_iff (a = b) (by simp)
    | Except.ok _, Except.error _ => Decidable.isFalse (by simp)
    | Except.error _, Except.ok _ => Decidable.isFalse (by simp)

/-- `wgpu::QueryType`: a timestamp query or a pipeline-statistics query
carrying its statistics bitmask (modelled as the raw bits `Nat`). -/
inductive QueryType where
  | Timestamp
  | PipelineStatistics (mask : Nat)
  deriving DecidableEq, Repr

/-- Structural popcount helper: counts the set bits of `n`, with `fuel`
bounding the recursion depth (`n` itself always suffices as fuel since
`n / 2 < n` for `n ≠ 0`). -/
def popcountAux : Nat → Nat → Nat
  | 0, _ => 0
  | _, 0 => 0
  | fuel + 1, n => n % 2 + popcountAux fuel (n / 2)

/-- `num_bits_set` from `queryset.rs`: population count of the bitmask
(`count_ones` on the primitive integer). -/
def num_bits_set (n : Nat) : Nat :=
  popcountAux n n

/-- `query_ty_size` from `queryset.rs`: the size (in u64 words) of a single
query result given the query type. -/
def query_ty_size : QueryType → Nat
  | QueryType.PipelineStatistics ty => num_bits_set ty
  | _ => 1

/-- `wgpu::PipelineStatisticsTypes::all().bits()`: the bitmask with all five
pipeline-statistic flag bits set (bits 0-4). -/
def PIPELINE_STATISTICS_ALL : Nat := 31

/-- `wgpu::QUERY_SET_MAX_QUERIES` (= `MAX_QUERIES` in `profiler.rs`). -/
def MAX_QUERIES : Nat := 8192

/-- A command recorded into a `wgpu::CommandEncoder` / `wgpu::RenderPass`.
Only the commands the profiler records are modelled. -/
inductive Command where
  | WriteTimestamp (index : Nat)
  | ResolveQuerySet (start stop : Nat)
  | BeginPipelineStatisticsQuery (index : Nat)
  | EndPipelineStatisticsQuery
  deriving DecidableEq, Repr

/-- `QuerySet` from `queryset.rs`: the query kind tag and the readback
buffer. `buffer` models the u64 words present in the readback buffer at
`get` time (what the GPU wrote there after `resolve` executed). -/
structure QuerySet where
  ty : QueryType
  buffer : List Nat
  deriving DecidableEq, Repr

namespace QuerySet

/-- `QuerySet::new_impl`: create a query set of the given type. The
readback buffer is created with `count * query_size` zeroed u64 slots
(`wgpu` buffers are zero-initialised and created unmapped). -/
def new_impl (ty : QueryType) (count : Nat) : QuerySet :=
  { ty := ty, buffer := List.replicate (query_ty_size ty * count) 0 }

/-- `QuerySet::new_timestamp`. -/
def new_timestamp (count : Nat) : QuerySet :=
  new_impl QueryType.Timestamp count

/-- `QuerySet::new_stats`: always uses all pipeline statistic types. -/
def new_stats (count : Nat) : QuerySet :=
  new_impl (QueryType.PipelineStatistics PIPELINE_STATISTICS_ALL) count

/-- `QuerySet::query_size`. -/
def query_size (qs : QuerySet) : Nat :=
  query_ty_size qs.ty

/-- `QuerySet::resolve(count, encoder)`: records a resolve of query slots
`0 .. count * query_size` into the readback buffer. The slot-count
multiplication is `u32` arithmetic. -/
def resolve (qs : QuerySet) (count : Nat) (encoder : List Command) : List Command :=
  encoder ++ [Command.ResolveQuerySet 0 (count * qs.query_size % U32_MOD)]

/-- `QuerySet::get(device, count)`: if `count == 0` return `Ok(vec![])`
without mapping the buffer; otherwise map the first
`count * query_size` u64 words for reading — `mapOk` is the outcome of the
asynchronous mapping (`map_async` + `poll` + `block_on`) — and on success
return those words, on failure `Err(BufferAsyncError)`.
The second component of the result records whether a buffer mapping was
issued (i.e. whether the readback buffer was touched at all). -/
def get (qs : QuerySet) (count : Nat) (mapOk : Bool) :
    Except GpuError (List Nat) × Bool :=
  if count = 0 then
    (Except.ok [], false)
  else if mapOk then
    (Except.ok (qs.buffer.take (count * qs.query_size)), true)
  else
    (Except.error GpuError.BufferAsyncError, true)

end QuerySet

/-- `Profiler` from `profiler.rs`. `markers` is the `RefCell<Vec<String>>`
label sequence; `resolved` the `Cell<bool>` flag; `timestamp_period` the
nanoseconds-per-tick factor (`f32` modelled as `ℚ`). -/
structure Profiler where
  timestamp : Option QuerySet
  stats : Option QuerySet
  timestamp_period : ℚ
  markers : List String
  resolved : Bool
  deriving DecidableEq, Repr

/-- The two device capability flags `Profiler::new` consults
(`wgpu::Features::TIMESTAMP_QUERY` and
`wgpu::Features::PIPELINE_STATISTICS_QUERY`). -/
structure DeviceFeatures where
  timestamp_query : Bool
  pipeline_statistics_query : Bool
  deriving DecidableEq, Repr

namespace Profiler

/-- `Profiler::query_count`: `markers.len() as u32` (truncating cast). -/
def query_count (p : Profiler) : Nat :=
  p.markers.length % U32_MOD

/-- `Profiler::query_index`: `query_count() - 1` in `u32` arithmetic, with
no emptiness check — underflow wraps to `2^32 - 1` (release semantics;
debug would panic). -/
def query_index (p : Profiler) : Nat :=
  (p.query_count + (U32_MOD - 1)) % U32_MOD

/-- `Profiler::new(device, queue)`: conditionally constructs each QuerySet
from the device features; the label sequence starts empty. -/
def new (feat : DeviceFeatures) (period : ℚ) : Profiler :=
  { timestamp := if feat.timestamp_query then
      some (QuerySet.new_timestamp MAX_QUERIES) else none
    stats := if feat.pipeline_statistics_query then
      some (QuerySet.new_stats MAX_QUERIES) else none
    timestamp_period := period
    markers := []
    resolved := false }

/-- `Profiler::begin_section(label)`: pushes an owned copy of the label. -/
def begin_section (p : Profiler) (label : String) : Profiler :=
  { p with markers := p.markers ++ [label] }

/-- `Profiler::timestamp(label, encoder)` (named `record_timestamp` here
because `timestamp` is the struct field): if the timestamp QuerySet exists,
records a write-timestamp at `query_index`; else a no-op. The `_label`
argument is, as in the source, unused. -/
def record_timestamp (p : Profiler) (_label : String) (encoder : List Command) :
    List Command :=
  match p.timestamp with
  | some _ => encoder ++ [Command.WriteTimestamp p.query_index]
  | none => encoder

/-- `Profiler::begin_stats(render_pass)`. -/
def begin_stats (p : Profiler) (render_pass : List Command) : List Command :=
  match p.stats with
  | some _ => render_pass ++ [Command.BeginPipelineStatisticsQuery p.query_index]
  | none => render_pass

/-- `Profiler::end_stats(render_pass)`. -/
def end_stats (p : Profiler) (render_pass : List Command) : List Command :=
  match p.stats with
  | some _ => render_pass ++ [Command.EndPipelineStatisticsQuery]
  | none => render_pass

/-- `Profiler::resolve(encoder)`: `self.stats.as_ref().unwrap().resolve(...)`.
The `unwrap` panics when `stats` is `None`; the panic is modelled as
`none`. -/
def resolve (p : Profiler) (encoder : List Command) : Option (List Command) :=
  match p.stats with
  | some qs => some (qs.resolve p.query_count encoder)
  | none => none

/-- `Profiler::clear`: empties the label sequence and resets the resolved
flag. -/
def clear (p : Profiler) : Profiler :=
  { p with markers := [], resolved := false }

/-- `Profiler::ts_to_millis(ts)`: `ts as f32 * timestamp_period / 1_000_000.0`. -/
def ts_to_millis (p : Profiler) (ts : Nat) : ℚ :=
  (ts : ℚ) * p.timestamp_period / 1000000

/-- `u64` wrapping subtraction `a - b` (release semantics of
`end - start` in `timestamp_report`; debug would panic on underflow). -/
def sub64 (a b : Nat) : Nat :=
  (a + (U64_MOD - b % U64_MOD)) % U64_MOD

/-- `Profiler::timestamp_report(device)`: if the timestamp QuerySet exists
and `get` succeeds, pairs each marker from index 1 on with
`ts_to_millis(val[i+1] - val[i]) / 1_000_000.0`; otherwise returns the
empty vector. Out-of-range indexing into `val` (a panic in the source,
unreachable when the buffer holds `query_count` words) is modelled with
default `0`. -/
def timestamp_report (p : Profiler) (mapOk : Bool) : List (String × ℚ) :=
  match p.timestamp with
  | none => []
  | some qs =>
    match (qs.get p.query_count mapOk).fst with
    | Except.error _ => []
    | Except.ok val =>
      (p.markers.drop 1).enum.map fun im =>
        let start := val.getD im.fst 0
        let e := val.getD (im.fst + 1) 0
        (im.snd, p.ts_to_millis (sub64 e start) / 1000000)

end Profiler

/-- Per-residue sum: `statSumFrom n v j` is the sum of the elements of `v`
whose position (counting from `n`) is congruent to `j` modulo 5. -/
def statSumFrom (n : Nat) (v : List Nat) (j : Nat) : Nat :=
  match v with
  | [] => 0
  | x :: xs => (if n % 5 = j then x else 0) + statSumFrom (n + 1) xs j

/-- The fold body of `Gpu::total_statistics`: `ret[i % 5] += stat` in
wrapping `u64` arithmetic. -/
def statStep (ret : List Nat) (istat : Nat × Nat) : List Nat :=
  ret.set (istat.fst % 5) ((ret.getD (istat.fst % 5) 0 + istat.snd) % U64_MOD)

/-- `Gpu::total_statistics` from `gpu.rs`: `Err(QueryNone)` when the
profiler has no statistics QuerySet; otherwise reads back
`query_count` queries (propagating any `get` error) and accumulates
`ret[i % 5] += stat` over the enumerated words into `[0; 5]`. -/
def total_statistics (p : Profiler) (mapOk : Bool) : Except GpuError (List Nat) :=
  match p.stats with
  | none => Except.error GpuError.QueryNone
  | some stats =>
    match (stats.get p.query_count mapOk).fst with
    | Except.error e => Except.error e
    | Except.ok v => Except.ok (v.enum.foldl statStep (List.replicate 5 0))

end Agpu

namespace Agpu

/-! Concrete instances used by witnesses and counterexamples. -/

/-- A timestamp QuerySet whose readback buffer holds the example ticks of
spec property P4: `[1000, 1500, 2700]`. -/
def tsExample : QuerySet :=
  { ty := QueryType.Timestamp, buffer := [1000, 1500, 2700] }

/-- The profiler of spec property P4: three recorded labels
`["start", "mid", "end"]` and a tick period of 1,000,000 ns/tick. -/
def reportExample : Profiler :=
  { timestamp := some tsExample
    stats := none
    timestamp_period := 1000000
    markers := ["start", "mid", "end"]
    resolved := false }

/-- A statistics QuerySet (all five statistic types) whose readback buffer
holds two queries worth of counters. -/
def statsExample : QuerySet :=
  { ty := QueryType.PipelineStatistics PIPELINE_STATISTICS_ALL
    buffer := [1, 2, 3, 4, 5, 10, 20, 30, 40, 50] }

/-- A profiler with a statistics QuerySet and two recorded labels. -/
def statsProfiler : Profiler :=
  { timestamp := none
    stats := some statsExample
    timestamp_period := 1
    markers := ["a", "b"]
    resolved := false }

/-- A profiler with both QuerySets and an empty label sequence. -/
def fullProfiler : Profiler :=
  { timestamp := some tsExample
    stats := some statsExample
    timestamp_period := 1
    markers := []
    resolved := false }

/-! Helper lemmas. -/

/-- `statStep` on a five-element accumulator, by cases on the slot index. -/
lemma statStep_five (a0 a1 a2 a3 a4 n x : Nat) :
    statStep [a0, a1, a2, a3, a4] (n, x) =
      if n % 5 = 0 then [(a0 + x) % U64_MOD, a1, a2, a3, a4]
      else if n % 5 = 1 then [a0, (a1 + x) % U64_MOD, a2, a3, a4]
      else if n % 5 = 2 then [a0, a1, (a2 + x) % U64_MOD, a3, a4]
      else if n % 5 = 3 then [a0, a1, a2, (a3 + x) % U64_MOD, a4]
      else [a0, a1, a2, a3, (a4 + x) % U64_MOD] := by
  rcases (show n % 5 = 0 ∨ n % 5 = 1 ∨ n % 5 = 2 ∨ n % 5 = 3 ∨ n % 5 = 4 by omega) with
    h | h | h | h | h <;> simp [statStep, h]

/-- The accumulation loop of `total_statistics` computes, in each of the five
slots, the per-residue sum of the enumerated words modulo `2^64`. -/
lemma foldl_statStep (v : List Nat) : ∀ (n a0 a1 a2 a3 a4 : Nat),
    a0 < U64_MOD → a1 < U64_MOD → a2 < U64_MOD → a3 < U64_MOD → a4 < U64_MOD →
    List.foldl statStep [a0, a1, a2, a3, a4] (List.enumFrom n v) =
      [(a0 + statSumFrom n v 0) % U64_MOD,
       (a1 + statSumFrom n v 1) % U64_MOD,
       (a2 + statSumFrom n v 2) % U64_MOD,
       (a3 + statSumFrom n v 3) % U64_MOD,
       (a4 + statSumFrom n v 4) % U64_MOD] := by
  induction v with
  | nil =>
    intro n a0 a1 a2 a3 a4 h0 h1 h2 h3 h4
    simp [statSumFrom, Nat.mod_eq_of_lt, h0, h1, h2, h3, h4]
  | cons x xs ih =>
    intro n a0 a1 a2 a3 a4 h0 h1 h2 h3 h4
    have hM : 0 < U64_MOD := by norm_num [U64_MOD]
    simp only [List.enumFrom, List.foldl_cons]
    rw [statStep_five]
    rcases (show n % 5 = 0 ∨ n % 5 = 1 ∨ n % 5 = 2 ∨ n % 5 = 3 ∨ n % 5 = 4 by omega) with
      h | h | h | h | h
    · rw [if_pos h, ih (n + 1) _ a1 a2 a3 a4 (Nat.mod_lt _ hM) h1 h2 h3 h4]
      simp [statSumFrom, h, Nat.mod_add_mod, Nat.add_assoc]
    · rw [if_neg (by omega), if_pos h, ih (n + 1) a0 _ a2 a3 a4 h0 (Nat.mod_lt _ hM) h2 h3 h4]
      simp [statSumFrom, h, Nat.mod_add_mod, Nat.add_assoc]
    · rw [if_neg (by omega), if_neg (by omega), if_pos h,
        ih (n + 1) a0 a1 _ a3 a4 h0 h1 (Nat.mod_lt _ hM) h3 h4]
      simp [statSumFrom, h, Nat.mod_add_mod, Nat.add_assoc]
    · rw [if_neg (by omega), if_neg (by omega), if_neg (by omega), if_pos h,
        ih (n + 1) a0 a1 a2 _ a4 h0 h1 h2 (Nat.mod_lt _ hM) h4]
      simp [statSumFrom, h, Nat.mod_add_mod, Nat.add_assoc]
    · rw [if_neg (by omega), if_neg (by omega), if_neg (by omega), if_neg (by omega),
        ih (n + 1) a0 a1 a2 a3 _ h0 h1 h2 h3 (Nat.mod_lt _ hM)]
      simp [statSumFrom, h, Nat.mod_add_mod, Nat.add_assoc]

/-- The only error `QuerySet.get` can produce is `BufferAsyncError`. -/
lemma get_error_is_bufferAsync (qs : QuerySet) (count : Nat) (mapOk : Bool)
    (e : GpuError) (h : (qs.get count mapOk).fst = Except.error e) :
    e = GpuError.BufferAsyncError := by
  unfold QuerySet.get at h
  by_cases hc : count = 0
  · rw [if_pos hc] at h; exact absurd h (by simp)
  · rw [if_neg hc] at h
    cases mapOk with
    | true => exact absurd h (by simp)
    | false => simpa using h.symm

end Agpu

namespace Agpu

/-! Claim theorems. -/

/-- C1 (code bug): at the spec P4 input — timestamp ticks `[1000, 1500, 2700]`
for labels `["start", "mid", "end"]` and a tick period of 1,000,000 ns/tick —
`timestamp_report` pairs each duration with the interval-end label as claimed,
but divides by one million twice (`ts_to_millis` already divides by 10^6 and
the report loop divides its result by 10^6 again), producing 1/2000 and 3/2500
instead of the claimed 500 ms and 1200 ms. -/
theorem timestamp_report_divides_by_million_twice :
    reportExample.timestamp_report true = [("mid", (1 : ℚ)/2000), ("end", (3 : ℚ)/2500)] ∧
    reportExample.timestamp_report true ≠ [("mid", (500 : ℚ)), ("end", (1200 : ℚ))] := by
  have h : reportExample.timestamp_report true =
      [("mid", (1 : ℚ)/2000), ("end", (3 : ℚ)/2500)] := by
    simp [reportExample, tsExample, Profiler.timestamp_report, QuerySet.get,
      Profiler.query_count, QuerySet.query_size, query_ty_size, U32_MOD,
      Profiler.ts_to_millis, Profiler.sub64, U64_MOD, List.enum, List.enumFrom]
    norm_num
  refine ⟨h, ?_⟩
  rw [h]
  intro hc
  have h2 := (List.cons.injEq _ _ _ _).mp hc
  have h3 : (1 : ℚ)/2000 = 500 := congrArg Prod.snd h2.1
  norm_num at h3

/-- C2 counterexample: on a profiler built against a device with neither
capability, `resolve` hits `self.stats.as_ref().unwrap()` on `None` and
panics (modelled as `none`), so it is not callable without panicking. -/
theorem resolve_panics_without_stats_queryset :
    (Profiler.new ⟨false, false⟩ 1).resolve [] = none := rfl

/-- C2 amended: on a profiler built with neither capability, every public
method except `resolve` is panic-free and acts as a no-op or returns an empty
result; `resolve` panics (unwrap of the absent statistics QuerySet). -/
theorem no_feature_profiler_methods_noop (period : ℚ) (label : String)
    (enc rp : List Command) (mapOk : Bool) :
    ((Profiler.new ⟨false, false⟩ period).record_timestamp label enc = enc) ∧
    ((Profiler.new ⟨false, false⟩ period).begin_stats rp = rp) ∧
    ((Profiler.new ⟨false, false⟩ period).end_stats rp = rp) ∧
    ((Profiler.new ⟨false, false⟩ period).timestamp_report mapOk = []) ∧
    ((Profiler.new ⟨false, false⟩ period).begin_section label).markers = [label] ∧
    ((Profiler.new ⟨false, false⟩ period).clear = Profiler.new ⟨false, false⟩ period) ∧
    ((Profiler.new ⟨false, false⟩ period).resolve enc = none) := by
  refine ⟨rfl, rfl, rfl, rfl, rfl, ?_, rfl⟩
  simp [Profiler.new, Profiler.clear]

/-- C3: `begin_section` appends exactly its label to the label sequence and
changes no other field; from an empty sequence, after `begin_section "A"` then
`begin_section "B"` the labels are `["A", "B"]`, `query_count` is 2, and the
query index used by the next timestamp or statistics write is 1. -/
theorem begin_section_appends_label (p : Profiler) (label : String) :
    (p.begin_section label).markers = p.markers ++ [label] ∧
    (p.begin_section label).timestamp = p.timestamp ∧
    (p.begin_section label).stats = p.stats ∧
    (p.begin_section label).timestamp_period = p.timestamp_period ∧
    (p.begin_section label).resolved = p.resolved ∧
    (p.markers = [] →
      ((p.begin_section "A").begin_section "B").markers = ["A", "B"] ∧
      ((p.begin_section "A").begin_section "B").query_count = 2 ∧
      ((p.begin_section "A").begin_section "B").query_index = 1 ∧
      (∀ qs enc, p.timestamp = some qs →
        ((p.begin_section "A").begin_section "B").record_timestamp label enc =
          enc ++ [Command.WriteTimestamp 1]) ∧
      (∀ qs rp, p.stats = some qs →
        ((p.begin_section "A").begin_section "B").begin_stats rp =
          rp ++ [Command.BeginPipelineStatisticsQuery 1])) := by
  refine ⟨rfl, rfl, rfl, rfl, rfl, ?_⟩
  intro h
  have hm : ((p.begin_section "A").begin_section "B").markers = ["A", "B"] := by
    simp [Profiler.begin_section, h]
  have hqc : ((p.begin_section "A").begin_section "B").query_count = 2 := by
    rw [Profiler.query_count, hm]
    simp [U32_MOD]
  have hqi : ((p.begin_section "A").begin_section "B").query_index = 1 := by
    rw [Profiler.query_index, hqc]
    simp [U32_MOD]
  refine ⟨hm, hqc, hqi, ?_, ?_⟩
  · intro qs enc hq
    have hts : ((p.begin_section "A").begin_section "B").timestamp = some qs := hq
    simp [Profiler.record_timestamp, hts, hqi]
  · intro qs rp hq
    have hst : ((p.begin_section "A").begin_section "B").stats = some qs := hq
    simp [Profiler.begin_stats, hst, hqi]

/-- C3 witness: the section-append facts evaluated on a concrete profiler
with both QuerySets and an empty label sequence. -/
theorem begin_section_appends_label_witness :
    ((fullProfiler.begin_section "A").begin_section "B").markers = ["A", "B"] ∧
    ((fullProfiler.begin_section "A").begin_section "B").query_index = 1 :=
  ⟨((begin_section_appends_label fullProfiler "x").2.2.2.2.2 rfl).1,
   ((begin_section_appends_label fullProfiler "x").2.2.2.2.2 rfl).2.2.1⟩

/-- C4: `get` with `count = 0` returns `Ok` with the empty sequence and
issues no buffer mapping and no read of the readback buffer (second
component `false`: the buffer is never touched). -/
theorem get_zero_returns_empty_without_mapping (qs : QuerySet) (mapOk : Bool) :
    qs.get 0 mapOk = (Except.ok [], false) := rfl

/-- C5: with `count > 0`, `get` fails exactly when the asynchronous mapping
fails, `BufferAsyncError` is the only error it can return, and
`timestamp_report` swallows any `get` failure into the empty report. -/
theorem get_error_spec (qs : QuerySet) (count : Nat) (mapOk : Bool) (h : count ≠ 0) :
    (((qs.get count mapOk).fst = Except.error GpuError.BufferAsyncError) ↔ mapOk = false) ∧
    (∀ e, (qs.get count mapOk).fst = Except.error e → e = GpuError.BufferAsyncError) ∧
    (∀ (p : Profiler) (tqs : QuerySet) (mo : Bool) (er : GpuError),
      p.timestamp = some tqs →
      (tqs.get p.query_count mo).fst = Except.error er →
      p.timestamp_report mo = []) := by
  refine ⟨?_, fun e he => get_error_is_bufferAsync qs count mapOk e he, ?_⟩
  · unfold QuerySet.get
    rw [if_neg h]
    cases mapOk <;> simp
  · intro p tqs mo er hts herr
    simp only [Profiler.timestamp_report, hts]
    rw [herr]

/-- C5 witness: evaluated at a failing mapping with three queries, and at the
P4 profiler whose mapping fails. -/
theorem get_error_spec_witness :
    (tsExample.get 3 false).fst = Except.error GpuError.BufferAsyncError ∧
    reportExample.timestamp_report false = [] :=
  ⟨(get_error_spec tsExample 3 false (by decide)).1.mpr rfl,
   (get_error_spec tsExample 3 false (by decide)).2.2 reportExample tsExample false
     GpuError.BufferAsyncError rfl (by decide)⟩

/-- C6: `query_size` is a pure function of the query-kind tag (so it never
changes over the life of the set, the tag being immutable): 1 for a timestamp
QuerySet, the population count of the statistics bitmask for a statistics
QuerySet, hence 5 for the full five-flag bitmask used by `new_stats`. -/
theorem query_size_determined_by_kind (c m : Nat) (qs : QuerySet) :
    (QuerySet.new_timestamp c).query_size = 1 ∧
    (QuerySet.new_stats c).query_size = 5 ∧
    qs.query_size = query_ty_size qs.ty ∧
    query_ty_size (QueryType.PipelineStatistics m) = num_bits_set m ∧
    query_ty_size QueryType.Timestamp = 1 ∧
    num_bits_set PIPELINE_STATISTICS_ALL = 5 :=
  ⟨rfl, rfl, rfl, rfl, rfl, rfl⟩

/-- C7: `clear` empties the label sequence and resets the resolved flag,
leaves the two QuerySet slots and the timestamp period unchanged, and the
next `begin_section` after it produces query index 0. -/
theorem clear_resets_labels_and_flag (p : Profiler) (label : String) :
    p.clear.markers = [] ∧
    p.clear.resolved = false ∧
    p.clear.timestamp = p.timestamp ∧
    p.clear.stats = p.stats ∧
    p.clear.timestamp_period = p.timestamp_period ∧
    (p.clear.begin_section label).query_index = 0 := by
  refine ⟨rfl, rfl, rfl, rfl, rfl, ?_⟩
  have hm : (p.clear.begin_section label).markers = [label] := by
    simp [Profiler.clear, Profiler.begin_section]
  rw [Profiler.query_index, Profiler.query_count, hm]
  simp [U32_MOD]

/-- C8: the label argument of `Profiler::timestamp` has no influence: for any
two labels the recorded command stream is identical, and when the timestamp
QuerySet exists the method appends exactly one write-timestamp at
`query_index` (the profiler state itself is never mutated: the method only
returns the extended stream). -/
theorem timestamp_ignores_label (p : Profiler) (l1 l2 : String) (enc : List Command) :
    p.record_timestamp l1 enc = p.record_timestamp l2 enc ∧
    (∀ qs, p.timestamp = some qs →
      p.record_timestamp l1 enc = enc ++ [Command.WriteTimestamp p.query_index]) ∧
    (p.timestamp = none → p.record_timestamp l1 enc = enc) := by
  refine ⟨rfl, ?_, ?_⟩
  · intro qs hq
    simp [Profiler.record_timestamp, hq]
  · intro hn
    simp [Profiler.record_timestamp, hn]

/-- C8 witness: on the P4 profiler (three labels), any label records a
write-timestamp at index 2. -/
theorem timestamp_ignores_label_witness :
    reportExample.record_timestamp "anything" [] = [Command.WriteTimestamp 2] :=
  ((timestamp_ignores_label reportExample "anything" "other" []).2.1
    tsExample rfl).trans (by decide)

/-- C9: `query_index` is `query_count - 1` in u32 arithmetic with no
emptiness check: with a non-empty label sequence it equals `len - 1`, but
with an empty sequence it wraps to `2^32 - 1` (release semantics; a debug
build panics), so `timestamp` / `begin_stats` on a profiler holding the
corresponding QuerySet then record a write at slot `2^32 - 1` instead of
being a safe no-op. -/
theorem query_index_underflows_when_empty (p : Profiler) :
    (p.markers ≠ [] → p.markers.length < U32_MOD →
      p.query_index = p.markers.length - 1) ∧
    (p.markers = [] →
      p.query_index = U32_MOD - 1 ∧
      (∀ qs enc label, p.timestamp = some qs →
        p.record_timestamp label enc = enc ++ [Command.WriteTimestamp (U32_MOD - 1)]) ∧
      (∀ qs rp, p.stats = some qs →
        p.begin_stats rp = rp ++ [Command.BeginPipelineStatisticsQuery (U32_MOD - 1)])) := by
  constructor
  · intro hne hlt
    have h1 : 0 < p.markers.length := List.length_pos.mpr hne
    rw [Profiler.query_index, Profiler.query_count, Nat.mod_eq_of_lt hlt]
    simp only [U32_MOD] at hlt ⊢
    omega
  · intro he
    have h0 : p.markers.length = 0 := by simp [he]
    have hq : p.query_index = U32_MOD - 1 := by
      rw [Profiler.query_index, Profiler.query_count, h0]
      simp [U32_MOD]
    refine ⟨hq, ?_, ?_⟩
    · intro qs enc label hts
      simp [Profiler.record_timestamp, hts, hq]
    · intro qs rp hst
      simp [Profiler.begin_stats, hst, hq]

/-- C9 witness: a profiler with both QuerySets and no recorded labels wraps
to index `2^32 - 1` and records a timestamp write there; the non-empty case
evaluated on the P4 profiler gives index 2. -/
theorem query_index_underflows_when_empty_witness :
    fullProfiler.query_index = U32_MOD - 1 ∧
    fullProfiler.record_timestamp "x" [] = [Command.WriteTimestamp (U32_MOD - 1)] ∧
    reportExample.query_index = 3 - 1 := by
  refine ⟨((query_index_underflows_when_empty fullProfiler).2 rfl).1, ?_,
    (query_index_underflows_when_empty reportExample).1 (by decide) (by decide)⟩
  exact (((query_index_underflows_when_empty fullProfiler).2 rfl).2.1
    tsExample [] "x" rfl).trans (by decide)

/-- C10: `total_statistics` returns `Err(QueryNone)` exactly when the
profiler has no statistics QuerySet; with a statistics QuerySet and a
successful readback `v`, it returns `Ok` with the five per-residue sums of
`v` (entry `j` sums the words at positions congruent to `j` mod 5) in u64
arithmetic — exactly the sums whenever they do not overflow. -/
theorem total_statistics_spec (p : Profiler) (mapOk : Bool) :
    (total_statistics p mapOk = Except.error GpuError.QueryNone ↔ p.stats = none) ∧
    (∀ qs v, p.stats = some qs →
      (qs.get p.query_count mapOk).fst = Except.ok v →
      total_statistics p mapOk =
        Except.ok [statSumFrom 0 v 0 % U64_MOD, statSumFrom 0 v 1 % U64_MOD,
          statSumFrom 0 v 2 % U64_MOD, statSumFrom 0 v 3 % U64_MOD,
          statSumFrom 0 v 4 % U64_MOD]) ∧
    (∀ qs v, p.stats = some qs →
      (qs.get p.query_count mapOk).fst = Except.ok v →
      statSumFrom 0 v 0 < U64_MOD → statSumFrom 0 v 1 < U64_MOD →
      statSumFrom 0 v 2 < U64_MOD → statSumFrom 0 v 3 < U64_MOD →
      statSumFrom 0 v 4 < U64_MOD →
      total_statistics p mapOk =
        Except.ok [statSumFrom 0 v 0, statSumFrom 0 v 1, statSumFrom 0 v 2,
          statSumFrom 0 v 3, statSumFrom 0 v 4]) := by
  have hM : 0 < U64_MOD := by norm_num [U64_MOD]
  have hok : ∀ qs v, p.stats = some qs →
      (qs.get p.query_count mapOk).fst = Except.ok v →
      total_statistics p mapOk =
        Except.ok [statSumFrom 0 v 0 % U64_MOD, statSumFrom 0 v 1 % U64_MOD,
          statSumFrom 0 v 2 % U64_MOD, statSumFrom 0 v 3 % U64_MOD,
          statSumFrom 0 v 4 % U64_MOD] := by
    intro qs v hs hv
    simp only [total_statistics, hs]
    rw [hv]
    show Except.ok (List.foldl statStep (List.replicate 5 0) v.enum) = _
    have he : List.foldl statStep (List.replicate 5 0) v.enum =
        List.foldl statStep [0, 0, 0, 0, 0] (List.enumFrom 0 v) := rfl
    have h := foldl_statStep v 0 0 0 0 0 0 hM hM hM hM hM
    simp only [Nat.zero_add] at h
    rw [he, h]
  refine ⟨⟨?_, ?_⟩, hok, ?_⟩
  · intro h
    cases hs : p.stats with
    | none => rfl
    | some qs =>
      exfalso
      simp only [total_statistics, hs] at h
      cases hg : (qs.get p.query_count mapOk).fst with
      | error e =>
        rw [hg] at h
        have he : e = GpuError.BufferAsyncError :=
          get_error_is_bufferAsync qs p.query_count mapOk e hg
        simp [he] at h
      | ok v =>
        rw [hg] at h
        simp at h
  · intro h
    simp only [total_statistics, h]
  · intro qs v hs hv l0 l1 l2 l3 l4
    rw [hok qs v hs hv]
    simp [Nat.mod_eq_of_lt, l0, l1, l2, l3, l4]

/-- C10 witness: on a profiler holding a statistics QuerySet with readback
words `[1, 2, 3, 4, 5, 10, 20, 30, 40, 50]` over two queries, the five
totals are `[11, 22, 33, 44, 55]`. -/
theorem total_statistics_spec_witness :
    total_statistics statsProfiler true = Except.ok [11, 22, 33, 44, 55] :=
  ((total_statistics_spec statsProfiler true).2.2 statsExample
    [1, 2, 3, 4, 5, 10, 20, 30, 40, 50] rfl (by decide)
    (by decide) (by decide) (by decide) (by decide) (by decide)).trans (by decide)

end Agpu
